import Mathlib

/-!
Verification of the flight-data ingestion pipeline.

This file gives a shallow embedding, in Lean 4, of the core logic of the
repository `dkfreitag/flight_data_project`:

* `src/aviationstack_data_ingestion.py`:
  - `form_aviationstack_api_call` (request builder),
  - `call_api_endpoint` (route validation and URL construction; the body of
    the function decorated by `get_pages_decorator`),
  - `get_pages_decorator.wrapper` (the paginator loop), and
* `src/utils/transform_api_response.py`:
  - `flatten_and_save_json` (the flattener),
  - `transform_flat_json_to_csv` (the tabulizer).

External effects are modelled as function parameters: the HTTP fetch is an
oracle argument, `json.loads` of a page response is modelled by a `Resp`
structure holding the parsed `pagination.total` together with the raw body
text, `json.dumps` of one flat record is an oracle argument, and the
per-row UTC timestamp of the tabulizer is an oracle argument indexed by
row number.  Python `int` is modelled by `Int`/`Nat`; the loop comparison
`(offset / limit) < max_pages` is exact because `offset` is always a
multiple of `limit = 100`.
-/

/- ## Paginator: `get_pages_decorator.wrapper` -/

/-- Models one fetched page response after `json.loads`: `total` is
`api_resp_dict['pagination']['total']` and `body` is the raw response
string `api_resp` that the wrapper concatenates into `output_str`. -/
structure Resp where
  total : Nat
  body : String
deriving Repr, DecidableEq

/-- The final state of one run of `get_pages_decorator.wrapper`: the ordered
list of page responses fetched, the accumulated `output_str`, and the value
of `api_resp_dict` when the loop exits. -/
structure RunResult where
  pages : List Resp
  output : String
  lastDict : Resp
deriving Repr, DecidableEq

/-- The `while (offset / limit) < max_pages` loop of
`get_pages_decorator.wrapper` (lines 93-114 of
`src/aviationstack_data_ingestion.py`), with `limit = 100`.  Each iteration
fetches the next batch, appends `',' + api_resp` to `output_str`, advances
`offset` by `limit`, and reloads `api_resp_dict` from the new response.
Returns the list of responses fetched by the loop, the final `output_str`,
and the final `api_resp_dict`. -/
def wrapperLoop (fetch : Nat → Resp) (maxPages : Int) (offset : Nat)
    (outputStr : String) (dict : Resp) : List Resp × String × Resp :=
  if h : Int.ofNat (offset / 100) < maxPages then
    let r := fetch offset
    let rest := wrapperLoop fetch maxPages (offset + 100) (outputStr ++ "," ++ r.body) r
    (r :: rest.1, rest.2)
  else
    ([], outputStr, dict)
termination_by (maxPages - Int.ofNat (offset / 100)).toNat
decreasing_by
  have h2 : (offset + 100) / 100 = offset / 100 + 1 := Nat.add_div_right offset (by omega)
  rw [h2]
  simp only [Int.ofNat_eq_coe] at h ⊢
  push_cast at h ⊢
  omega

/-- Models `get_pages_decorator.wrapper` (lines 49-119 of
`src/aviationstack_data_ingestion.py`).  `fetch o` models
`json.loads(func(*args, **kwargs, limit=100, offset=o))` together with the
raw response text; `pageLimitGlobal` is `PAGE_LIMIT_GLOBAL` (`-1` is the
unbounded sentinel).  The first page is fetched unconditionally; then
`max_pages` is replaced by `total // limit + 1` if it is `-1`, clamped by
`min (total // limit + 1) max_pages`, and the loop runs.  The sleep between
pages has no effect on the data flow and is not modelled. -/
def get_pages (fetch : Nat → Resp) (pageLimitGlobal : Int) : RunResult :=
  let limit : Nat := 100
  let offset0 : Nat := 0
  let api_resp := fetch offset0
  let output_str := "[" ++ api_resp.body
  let api_resp_dict := api_resp
  let offset1 := offset0 + limit
  let max_pages0 : Int :=
    if pageLimitGlobal = -1 then Int.ofNat (api_resp_dict.total / limit) + 1 else pageLimitGlobal
  let max_pages : Int := min (Int.ofNat (api_resp_dict.total / limit) + 1) max_pages0
  let res := wrapperLoop fetch max_pages offset1 output_str api_resp_dict
  ⟨api_resp :: res.1, res.2.1 ++ "]", res.2.2⟩

theorem wrapperLoop_length (fetch : Nat → Resp) (mp : Int) :
    ∀ (n : Nat) (o : Nat) (out : String) (d : Resp),
      (mp - Int.ofNat (o / 100)).toNat = n →
      (wrapperLoop fetch mp o out d).1.length = n := by
  intro n
  induction n with
  | zero =>
    intro o out d h
    have hc : ¬ Int.ofNat (o / 100) < mp := by
      simp only [Int.ofNat_eq_coe]
      simp only [Int.ofNat_eq_coe] at h
      omega
    rw [wrapperLoop, dif_neg hc]
    rfl
  | succ k ih =>
    intro o out d h
    have hc : Int.ofNat (o / 100) < mp := by
      simp only [Int.ofNat_eq_coe]
      simp only [Int.ofNat_eq_coe] at h
      omega
    have h2 : (o + 100) / 100 = o / 100 + 1 := Nat.add_div_right o (by omega)
    have hrec := ih (o + 100) (out ++ "," ++ (fetch o).body) (fetch o)
      (by rw [h2]; simp only [Int.ofNat_eq_coe] at h ⊢; omega)
    rw [wrapperLoop, dif_pos hc]
    simp [hrec]

theorem wrapperLoop_lastDict (fetch : Nat → Resp) (mp : Int) :
    ∀ (n : Nat) (o : Nat) (out : String) (d : Resp),
      (mp - Int.ofNat (o / 100)).toNat = n →
      (wrapperLoop fetch mp o out d).2.2 = (wrapperLoop fetch mp o out d).1.getLastD d := by
  intro n
  induction n with
  | zero =>
    intro o out d h
    have hc : ¬ Int.ofNat (o / 100) < mp := by
      simp only [Int.ofNat_eq_coe]
      simp only [Int.ofNat_eq_coe] at h
      omega
    rw [wrapperLoop, dif_neg hc]
    simp
  | succ k ih =>
    intro o out d h
    have hc : Int.ofNat (o / 100) < mp := by
      simp only [Int.ofNat_eq_coe]
      simp only [Int.ofNat_eq_coe] at h
      omega
    have h2 : (o + 100) / 100 = o / 100 + 1 := Nat.add_div_right o (by omega)
    have hrec := ih (o + 100) (out ++ "," ++ (fetch o).body) (fetch o)
      (by rw [h2]; simp only [Int.ofNat_eq_coe] at h ⊢; omega)
    rw [wrapperLoop, dif_pos hc]
    simp [hrec, List.getLast?_cons, List.getLastD_eq_getLast?]

/-- Closed form for the number of pages a run fetches: one unconditional
first page plus one page per loop iteration, the loop bound being fixed
from the first response's `pagination.total`. -/
theorem get_pages_length (fetch : Nat → Resp) (M : Int) :
    (get_pages fetch M).pages.length =
      1 + ((min (Int.ofNat ((fetch 0).total / 100) + 1)
              (if M = -1 then Int.ofNat ((fetch 0).total / 100) + 1 else M)) - 1).toNat := by
  have h100 : (100 : Nat) / 100 = 1 := by norm_num
  have := wrapperLoop_length fetch
    (min (Int.ofNat ((fetch 0).total / 100) + 1)
      (if M = -1 then Int.ofNat ((fetch 0).total / 100) + 1 else M))
    ((min (Int.ofNat ((fetch 0).total / 100) + 1)
        (if M = -1 then Int.ofNat ((fetch 0).total / 100) + 1 else M)) - 1).toNat
    (0 + 100) ("[" ++ (fetch 0).body) (fetch 0)
    (by rw [Nat.zero_add, h100]; simp only [Int.ofNat_eq_coe]; omega)
  simp only [get_pages, List.length_cons]
  rw [this]
  omega

/-- The `api_resp_dict` state left by a run is the last response fetched
(the first response if the loop body never ran). -/
theorem get_pages_lastDict (fetch : Nat → Resp) (M : Int) :
    (get_pages fetch M).lastDict = (get_pages fetch M).pages.getLastD (fetch 0) := by
  have h := wrapperLoop_lastDict fetch
    (min (Int.ofNat ((fetch 0).total / 100) + 1)
      (if M = -1 then Int.ofNat ((fetch 0).total / 100) + 1 else M))
    ((min (Int.ofNat ((fetch 0).total / 100) + 1)
        (if M = -1 then Int.ofNat ((fetch 0).total / 100) + 1 else M)) - 1).toNat
    (0 + 100) ("[" ++ (fetch 0).body) (fetch 0)
    (by
      have h100 : (100 : Nat) / 100 = 1 := by norm_num
      rw [Nat.zero_add, h100]; simp only [Int.ofNat_eq_coe]; omega)
  simp only [get_pages]
  rw [h]
  simp [List.getLastD_eq_getLast?, List.getLast?_cons]

/- ## Request builder and endpoint validation: `call_api_endpoint` -/

/-- Models `form_aviationstack_api_call` (lines 23-38 of
`src/aviationstack_data_ingestion.py`): the base URL with credential,
`limit` and `offset` query parameters. -/
def form_aviationstack_api_call (api_route api_key : String) (limit offset : Nat) : String :=
  "https://api.aviationstack.com/v1/" ++ api_route ++ "?access_key=" ++ api_key
    ++ "&limit=" ++ toString limit ++ "&offset=" ++ toString offset

/-- The exceptions `call_api_endpoint` can raise, one constructor per
`raise` site.  In the terms of the specification's error taxonomy,
`noApiRoute`, `noAirportForFlights` and `missingTimetableArgs` are
`ConfigurationError`s and `sleepBelowMinimum` is the
`RateLimitConfigError`. -/
inductive ApiError where
  | noApiRoute
  | noAirportForFlights
  | missingTimetableArgs
  | sleepBelowMinimum
deriving Repr, DecidableEq

/-- Models the Python f-string rendering of an optional value: `None`
renders as the four-character string `"None"`. -/
def pyOptStr : Option String → String
  | none => "None"
  | some s => s

/-- Models `if x is not None: req_url += key + x` for one optional query
parameter (lines 170-180 of `src/aviationstack_data_ingestion.py`). -/
def optParamStr (key : String) : Option String → String
  | none => ""
  | some v => key ++ v

/-- Models the body of `call_api_endpoint` (lines 125-194 of
`src/aviationstack_data_ingestion.py`): route validation, then URL
construction, then the network fetch.  `fetch` is the `urllib.request`
oracle (it is consulted only on the success path, so an `.error` result
means the function raised before any network request was issued);
`apiKey` is the module global `AVIATIONSTACK_API_KEY` and
`pageSleepGlobal` the module global `PAGE_SLEEP_GLOBAL`.  Note that the
`&iataCode=...&type=...` parameters are appended unconditionally (lines
184-185), rendering absent values as the string `None`. -/
def call_api_endpoint (fetch : String → String) (apiKey : String) (pageSleepGlobal : Int)
    (api_route flight_date departure_airport_iata arrival_airport_iata flight_iata
      iataCode type : Option String)
    (limit offset : Nat) : Except ApiError String :=
  match api_route with
  | none => .error .noApiRoute
  | some route =>
    let req_url :=
      form_aviationstack_api_call route apiKey limit offset
        ++ optParamStr "&flight_date=" flight_date
        ++ optParamStr "&dep_iata=" departure_airport_iata
        ++ optParamStr "&arr_iata=" arrival_airport_iata
        ++ optParamStr "&flight_iata=" flight_iata
        ++ "&iataCode=" ++ pyOptStr iataCode
        ++ "&type=" ++ pyOptStr type
    if route = "flights" then
      if departure_airport_iata = none ∧ arrival_airport_iata = none then
        .error .noAirportForFlights
      else .ok (fetch req_url)
    else if route = "timetable" then
      if iataCode = none ∨ type = none then .error .missingTimetableArgs
      else if pageSleepGlobal < 62 then .error .sleepBelowMinimum
      else .ok (fetch req_url)
    else .ok (fetch req_url)

/- ## JSON values and the flattener: `flatten_and_save_json` -/

/-- A JSON value: the data model for one `Record` of a page's `data`
array. -/
inductive JVal where
  | str (s : String)
  | num (n : Int)
  | bool (b : Bool)
  | null
  | obj (fields : List (String × JVal))
  | arr (elems : List JVal)
deriving Repr

/-- A value is scalar when it is neither an object nor an array: the kind
of value a `FlatRecord` may hold. -/
def JVal.isScalar : JVal → Bool
  | .obj _ => false
  | .arr _ => false
  | _ => true

/-- A `FlatRecord`: a single-level ordered mapping from flattened keys to
values, as produced by `flatten_json.flatten` (Python dicts preserve
insertion order). -/
abbrev FlatRecord := List (String × JVal)

/-- Path-join rule of the flattener: a nested key is appended to the path
accumulated so far with the `_` separator (`flatten_json.flatten`'s
default); a top-level key is the path itself. -/
def joinKey : Option String → String → String
  | none, k => k
  | some p, k => p ++ "_" ++ k

mutual
/-- Modelled from the spec: the repository calls the external PyPI library
function `flatten_json.flatten`, whose implementation is not under `src/`.
Following section 4.3 of the specification, "Nested structures are
flattened using a path-join rule: object keys concatenate with a
separator; array elements are indexed into the path", and scalar leaves
are emitted at their accumulated path. -/
def flatten1 : JVal → Option String → List (String × JVal)
  | .obj fs, pfx => flattenFields fs pfx
  | .arr es, pfx => flattenElems es 0 pfx
  | v, pfx => [(pfx.getD "", v)]

/-- Flattens the fields of a JSON object under a path position (see
`flatten1`). -/
def flattenFields : List (String × JVal) → Option String → List (String × JVal)
  | [], _ => []
  | (k, v) :: rest, pfx => flatten1 v (some (joinKey pfx k)) ++ flattenFields rest pfx

/-- Flattens the elements of a JSON array under a path position, indexing
each element into the path (see `flatten1`). -/
def flattenElems : List JVal → Nat → Option String → List (String × JVal)
  | [], _, _ => []
  | v :: rest, i, pfx => flatten1 v (some (joinKey pfx (toString i))) ++ flattenElems rest (i + 1) pfx
end

/-- Modelled from the spec: `flatten_json.flatten` applied to one record,
starting from the empty path. -/
def flatten (record : JVal) : List (String × JVal) := flatten1 record none

/-- One page of the deserialized API response as consumed by the
flattener, which reads only its `data` array of records
(`input_json[page]['data']`, line 23 of
`src/utils/transform_api_response.py`). -/
structure FPage where
  data : List JVal

/-- Models the Python string slice `output_str[:-1]` (line 32 of
`src/utils/transform_api_response.py`): drop the final character; on the
empty string it is the identity. -/
def pyDropLast (s : String) : String := ⟨s.data.dropLast⟩

/-- Models `flatten_and_save_json` (lines 5-37 of
`src/utils/transform_api_response.py`).  `dumps` is the `json.dumps`
oracle serializing one flat record.  The function opens with `[`, appends
`dumps(flatten(record)) + ','` for every record of every page in order,
drops the last character (intended to strip the trailing comma), and
closes with `]`. -/
def flatten_and_save_json (dumps : FlatRecord → String) (input_json : List FPage) : String :=
  let output_str := "["
  let output_str := input_json.foldl
    (fun acc page => page.data.foldl (fun a record => a ++ dumps (flatten record) ++ ",") acc)
    output_str
  let output_str := pyDropLast output_str
  output_str ++ "]"

/-- The ordered sequence of flat records produced by the flattener's loop:
one `flatten` application per record of every page, in original order. -/
def flattened_records (input_json : List FPage) : List FlatRecord :=
  ((input_json.map FPage.data).flatten).map flatten

/- ## Tabulizer: `transform_flat_json_to_csv` -/

/-- Models one field emission of the tabulizer's row loop (lines 75-82 of
`src/utils/transform_api_response.py`): `output_str += record[col] + ','`
under a bare `try/except` that appends `,` alone whenever the lookup or
the string concatenation raises.  The concatenation `record[col] + ','`
succeeds only when the stored value is a string; a missing key raises
`KeyError` and a non-string value raises `TypeError`, both caught by the
bare `except`. -/
def csv_field (record : FlatRecord) (col : String) : String :=
  match record.lookup col with
  | some (JVal.str s) => s ++ ","
  | _ => ","

/-- Models the tabulizer's `column_set` (lines 52-60 of
`src/utils/transform_api_response.py`): the keys of all records are
accumulated into a Python `set` and sorted, i.e. the sorted duplicate-free
union of all keys. -/
def column_set_of (flat_json : List FlatRecord) : List String :=
  List.insertionSort (fun a b => a ≤ b)
    (((flat_json.map (fun r => r.map Prod.fst)).flatten).dedup)

/-- Models `transform_flat_json_to_csv` (lines 40-90 of
`src/utils/transform_api_response.py`).  `rowTs` is the
`datetime.now(timezone.utc).strftime(...)` oracle, indexed by row number
(the timestamp is taken independently per row).  Header: every column name
followed by `,`, then the fixed `row_ts` column and a newline; then one
line per record with one `csv_field` per column, the row timestamp and a
newline. -/
def transform_flat_json_to_csv (rowTs : Nat → String) (flat_json : List FlatRecord) : String :=
  let column_set := column_set_of flat_json
  let header_str := column_set.foldl (fun acc col => acc ++ (col ++ ",")) ""
  let header_str := header_str ++ "row_ts"
  let output_str := header_str ++ "\n"
  (flat_json.enum).foldl
    (fun acc ir => (column_set.foldl (fun a col => a ++ csv_field ir.2 col) acc) ++ rowTs ir.1 ++ "\n")
    output_str

/- ## String helpers for reasoning about the accumulating folds -/

/-- Concatenation of `f` over a list, the closed form of the repeated
`output_str += f(x)` accumulation. -/
def strcat (f : α → String) : List α → String
  | [] => ""
  | x :: rest => f x ++ strcat f rest

/-- Comma-separated concatenation of `f` over a list: the shape of a
JSON-array body or of a CSV segment. -/
def commaSep (f : α → String) : List α → String
  | [] => ""
  | [x] => f x
  | x :: y :: rest => f x ++ "," ++ commaSep f (y :: rest)

theorem foldl_strcat (f : α → String) :
    ∀ (l : List α) (init : String),
      l.foldl (fun acc x => acc ++ f x) init = init ++ strcat f l := by
  intro l
  induction l with
  | nil => intro init; simp [strcat]
  | cons x rest ih =>
    intro init
    simp only [List.foldl_cons, strcat, ih (init ++ f x)]
    rw [String.append_assoc]

theorem strcat_append (f : α → String) (l₁ l₂ : List α) :
    strcat f (l₁ ++ l₂) = strcat f l₁ ++ strcat f l₂ := by
  induction l₁ with
  | nil => simp [strcat]
  | cons x rest ih =>
    show strcat f (x :: (rest ++ l₂)) = strcat f (x :: rest) ++ strcat f l₂
    simp only [strcat]
    rw [ih, String.append_assoc]

theorem strcat_comma_ne_empty (f : α → String) (y : α) (t : List α) :
    strcat (fun x => f x ++ ",") (y :: t) ≠ "" := by
  intro hEq
  have hd := congrArg String.data hEq
  simp only [strcat, String.data_append] at hd
  simp at hd

theorem pyDropLast_comma (s : String) : pyDropLast (s ++ ",") = s := by
  cases s with
  | mk data =>
    show String.mk _ = _
    rw [String.data_append]
    simp [pyDropLast]

theorem pyDropLast_append (s t : String) (h : t ≠ "") :
    pyDropLast (s ++ t) = s ++ pyDropLast t := by
  have hd : t.data ≠ [] := by
    intro hnil
    apply h
    cases t with
    | mk data => simp at hnil; rw [hnil]
  cases s with
  | mk sdata =>
    cases t with
    | mk tdata =>
      show String.mk _ = _
      rw [String.data_append]
      simp only [pyDropLast]
      show String.mk _ = String.mk _
      rw [List.dropLast_append_of_ne_nil _ hd]

theorem pyDropLast_strcat_comma (f : α → String) :
    ∀ (l : List α), l ≠ [] →
      pyDropLast (strcat (fun x => f x ++ ",") l) = commaSep f l := by
  intro l
  induction l with
  | nil => intro h; exact absurd rfl h
  | cons x t ih =>
    intro _
    cases t with
    | nil =>
      simp only [strcat, commaSep]
      rw [String.append_empty]
      exact pyDropLast_comma (f x)
    | cons y rest =>
      rw [show strcat (fun x => f x ++ ",") (x :: y :: rest)
          = (f x ++ ",") ++ strcat (fun x => f x ++ ",") (y :: rest) from rfl]
      rw [pyDropLast_append _ _ (strcat_comma_ne_empty f y rest), ih (by simp)]
      rw [show commaSep f (x :: y :: rest) = f x ++ "," ++ commaSep f (y :: rest) from rfl]

/- ## Structural lemmas for the flattener -/

theorem pages_fold_strcat (g : JVal → String) :
    ∀ (pages : List FPage) (init : String),
      pages.foldl (fun acc page => page.data.foldl (fun a record => a ++ g record) acc) init
        = init ++ strcat g ((pages.map FPage.data).flatten) := by
  intro pages
  induction pages with
  | nil => intro init; simp [strcat]
  | cons p rest ih =>
    intro init
    simp only [List.foldl_cons]
    rw [foldl_strcat g p.data init, ih,
      show ((p :: rest).map FPage.data).flatten = p.data ++ ((rest.map FPage.data).flatten) by
        simp,
      strcat_append, ← String.append_assoc]

theorem flatten_fold_closed (dumps : FlatRecord → String) (pages : List FPage) (init : String) :
    pages.foldl
      (fun acc page => page.data.foldl (fun a record => a ++ dumps (flatten record) ++ ",") acc)
      init
    = init ++ strcat (fun r => dumps (flatten r) ++ ",") ((pages.map FPage.data).flatten) := by
  have hfun : (fun (a : String) (record : JVal) => a ++ dumps (flatten record) ++ ",")
      = fun a record => a ++ ((fun r => dumps (flatten r) ++ ",") record) := by
    funext a r
    rw [String.append_assoc]
  rw [hfun, pages_fold_strcat (fun r => dumps (flatten r) ++ ",") pages init]

theorem flattened_records_of_all_empty :
    ∀ (pages : List FPage), (∀ p ∈ pages, p.data = []) →
      ((pages.map FPage.data).flatten) = [] := by
  intro pages
  induction pages with
  | nil => intro _; rfl
  | cons p rest ih =>
    intro h
    rw [List.map_cons, List.flatten_cons, h p (by simp), ih (fun q hq => h q (by simp [hq]))]
    rfl

theorem flatten_and_save_json_closed (dumps : FlatRecord → String) (pages : List FPage)
    (h : ((pages.map FPage.data).flatten) ≠ []) :
    flatten_and_save_json dumps pages
      = "[" ++ commaSep (fun r => dumps (flatten r)) ((pages.map FPage.data).flatten) ++ "]" := by
  obtain ⟨y, t, hyt⟩ := List.exists_cons_of_ne_nil h
  simp only [flatten_and_save_json]
  rw [flatten_fold_closed, hyt,
    pyDropLast_append _ _ (strcat_comma_ne_empty (fun r => dumps (flatten r)) y t),
    pyDropLast_strcat_comma _ _ (by simp)]

/- ## Lemmas about flattening already-flat records -/

theorem flattenFields_scalar :
    ∀ (fs : List (String × JVal)), (∀ kv ∈ fs, kv.2.isScalar = true) →
      flattenFields fs none = fs := by
  intro fs
  induction fs with
  | nil => intro _; rfl
  | cons kv rest ih =>
    obtain ⟨k, v⟩ := kv
    intro h
    have hv : v.isScalar = true := h (k, v) (by simp)
    have hrest := ih (fun x hx => h x (by simp [hx]))
    rw [flattenFields, hrest]
    have hone : flatten1 v (some (joinKey none k)) = [(k, v)] := by
      cases v with
      | obj fs2 => simp [JVal.isScalar] at hv
      | arr es => simp [JVal.isScalar] at hv
      | str s => rfl
      | num n => rfl
      | bool b => rfl
      | null => rfl
    rw [hone]
    rfl

/- ## Lemmas about the tabulizer -/

theorem column_set_sorted (flat_json : List FlatRecord) :
    List.Sorted (fun a b : String => a ≤ b) (column_set_of flat_json) :=
  List.sorted_insertionSort _ _

theorem column_set_nodup (flat_json : List FlatRecord) :
    (column_set_of flat_json).Nodup :=
  ((List.perm_insertionSort _ _).nodup_iff).mpr (List.nodup_dedup _)

theorem column_set_mem (flat_json : List FlatRecord) (c : String) :
    c ∈ column_set_of flat_json ↔ ∃ r ∈ flat_json, c ∈ r.map Prod.fst := by
  rw [column_set_of, (List.perm_insertionSort _ _).mem_iff, List.mem_dedup, List.mem_flatten]
  simp

theorem lookup_eq_none_of_no_key {β : Type} (c : String) :
    ∀ (r : List (String × β)), (∀ kv ∈ r, kv.1 ≠ c) → r.lookup c = none := by
  intro r
  induction r with
  | nil => intro _; rfl
  | cons kv rest ih =>
    obtain ⟨k, v⟩ := kv
    intro h
    have h1 : k ≠ c := h (k, v) (by simp)
    have hb : (c == k) = false := by
      rw [beq_eq_false_iff_ne]
      exact fun he => h1 he.symm
    simp only [List.lookup, hb]
    exact ih (fun x hx => h x (by simp [hx]))

theorem transform_flat_json_to_csv_closed (rowTs : Nat → String) (flat_json : List FlatRecord) :
    transform_flat_json_to_csv rowTs flat_json
      = strcat (fun col => col ++ ",") (column_set_of flat_json) ++ "row_ts" ++ "\n"
        ++ strcat
            (fun ir : Nat × FlatRecord =>
              strcat (csv_field ir.2) (column_set_of flat_json) ++ rowTs ir.1 ++ "\n")
            flat_json.enum := by
  simp only [transform_flat_json_to_csv]
  rw [foldl_strcat (fun col => col ++ ",") (column_set_of flat_json) ""]
  have hfun : (fun (acc : String) (ir : Nat × FlatRecord) =>
        ((column_set_of flat_json).foldl (fun a col => a ++ csv_field ir.2 col) acc)
          ++ rowTs ir.1 ++ "\n")
      = fun acc ir =>
          acc ++ (strcat (csv_field ir.2) (column_set_of flat_json) ++ rowTs ir.1 ++ "\n") := by
    funext acc ir
    rw [foldl_strcat]
    simp only [String.append_assoc]
  rw [hfun, foldl_strcat]
  simp only [String.empty_append, String.append_assoc]

/- ## Concrete fetch oracles used in witnesses and counterexamples -/

/-- A fetch oracle whose every response reports `pagination.total = t`. -/
def constFetch (t : Nat) : Nat → Resp := fun _ => ⟨t, "r"⟩

/-- A fetch oracle for a growing upstream dataset: page 1 reports total
250, every later page reports total 1000. -/
def growFetch : Nat → Resp := fun o => if o = 0 then ⟨250, "a"⟩ else ⟨1000, "b"⟩

/-- A fetch oracle agreeing with `growFetch` on page 1 and constant
afterwards. -/
def baseFetch : Nat → Resp := fun _ => ⟨250, "a"⟩

/- ## C1: pages fetched by the paginator -/

/-- C1 (amended): with `limit = 100`, the Paginator fetches exactly
`min (total / 100 + 1) max_pages` pages (floor division) when
`max_pages ≥ 1`, and exactly `total / 100 + 1` pages when `max_pages` is
the unbounded sentinel `-1`, where `total` is the first page's
`pagination.total`; in every case at least 1 page is fetched.  This equals
the claimed `min (ceil(total/100)) max_pages` except when `100` divides
`total` (including `total = 0`), where one extra page is fetched. -/
theorem paginator_page_count (fetch : Nat → Resp) (M : Int) :
    (1 ≤ M → (get_pages fetch M).pages.length
        = min ((fetch 0).total / 100 + 1) M.toNat)
    ∧ (M = -1 → (get_pages fetch M).pages.length = (fetch 0).total / 100 + 1)
    ∧ 1 ≤ (get_pages fetch M).pages.length := by
  have hl := get_pages_length fetch M
  refine ⟨?_, ?_, ?_⟩
  · intro hM
    rw [hl, if_neg (by omega : ¬ M = -1)]
    simp only [Int.ofNat_eq_coe]
    omega
  · intro hM
    subst hM
    rw [hl, if_pos rfl]
    simp only [Int.ofNat_eq_coe]
    omega
  · rw [hl]
    omega

/-- C1 witness: first-page total 250 and `max_pages = 2` give
`min (250/100 + 1) 2 = 2` pages. -/
theorem paginator_page_count_witness :
    (1 ≤ (2 : Int))
    ∧ (get_pages (constFetch 250) 2).pages.length = min (250 / 100 + 1) (2 : Int).toNat :=
  ⟨by decide, (paginator_page_count (constFetch 250) 2).1 (by decide)⟩

/-- C1 counterexample: with first-page total 200 and the unbounded
sentinel, the code fetches `200 / 100 + 1 = 3` pages, not
`ceil(200/100) = 2` as the claim states. -/
theorem paginator_page_count_cex :
    (get_pages (constFetch 200) (-1)).pages.length = 3
    ∧ (get_pages (constFetch 200) (-1)).pages.length ≠ (200 + 100 - 1) / 100 := by
  have hl := get_pages_length (constFetch 200) (-1)
  rw [if_pos rfl] at hl
  constructor
  · rw [hl]; decide
  · rw [hl]; decide

/- ## C5: zero-total first page -/

/-- C5: if the first page reports `pagination.total = 0`, the run fetches
exactly 1 page, for any `max_pages ≥ 1` and for the unbounded sentinel
`-1`. -/
theorem paginator_zero_total (fetch : Nat → Resp) (M : Int)
    (h0 : (fetch 0).total = 0) (hM : 1 ≤ M ∨ M = -1) :
    (get_pages fetch M).pages.length = 1 := by
  have hl := get_pages_length fetch M
  rw [h0] at hl
  rcases hM with hM | hM
  · rw [if_neg (by omega : ¬ M = -1)] at hl
    rw [hl]
    simp only [Int.ofNat_eq_coe, Nat.zero_div]
    omega
  · subst hM
    rw [if_pos rfl] at hl
    rw [hl]
    decide

/-- C5 witness: total 0 under the unbounded sentinel yields 1 page. -/
theorem paginator_zero_total_witness :
    ((constFetch 0 0).total = 0 ∧ ((1 : Int) ≤ -1 ∨ (-1 : Int) = -1))
    ∧ (get_pages (constFetch 0) (-1)).pages.length = 1 :=
  ⟨⟨rfl, Or.inr rfl⟩, paginator_zero_total (constFetch 0) (-1) rfl (Or.inr rfl)⟩

/- ## C6: re-reading pagination.total mid-run -/

/-- C6 (amended): the wrapper reloads `pagination.total` from each new
response into `api_resp_dict` (so the final parsed state is the last
response fetched), but the reloaded value is never used by the loop: the
loop bound is computed once from page 1, so the number of pages fetched is
unchanged under any fetch oracle agreeing on page 1 — later totals neither
shrink nor extend the run. -/
theorem paginator_total_reread (fetch : Nat → Resp) (M : Int) :
    (get_pages fetch M).lastDict = (get_pages fetch M).pages.getLastD (fetch 0)
    ∧ (∀ g : Nat → Resp, g 0 = fetch 0 →
        (get_pages g M).pages.length = (get_pages fetch M).pages.length) := by
  refine ⟨get_pages_lastDict fetch M, ?_⟩
  intro g hg
  rw [get_pages_length, get_pages_length, hg]

/-- C6 witness: `growFetch` and `baseFetch` agree on page 1, so their runs
fetch the same number of pages even though every later `growFetch`
response reports a different total. -/
theorem paginator_total_reread_witness :
    growFetch 0 = baseFetch 0
    ∧ (get_pages growFetch (-1)).pages.length = (get_pages baseFetch (-1)).pages.length :=
  ⟨rfl, (paginator_total_reread baseFetch (-1)).2 growFetch rfl⟩

/-- C6 counterexample: page 1 reports total 250; every later response
reports total 1000; under the unbounded sentinel the run fetches 3 pages —
the count dictated by the page-1 total — not the `1000/100 + 1 = 11` pages
the last-seen total would dictate, so the last-seen total does not win in
any loop calculation. -/
theorem paginator_total_reread_cex :
    growFetch 100 = ⟨1000, "b"⟩
    ∧ (get_pages growFetch (-1)).pages.length = 3
    ∧ (get_pages growFetch (-1)).pages.length ≠ 1000 / 100 + 1 := by
  have hl := get_pages_length growFetch (-1)
  rw [if_pos rfl] at hl
  refine ⟨rfl, ?_, ?_⟩
  · rw [hl]; decide
  · rw [hl]; decide

/- ## C3: rate-limit guard for the timetable route -/

/-- C3: a timetable (schedule) call with the required `iataCode` and
`type` arguments but an inter-page delay below 62 seconds fails with the
rate-limit configuration error; the result is the same for every fetch
oracle, i.e. the failure happens before any network request is issued. -/
theorem timetable_sleep_guard (fetch : String → String) (apiKey : String) (sleep : Int)
    (flight_date dep arr fi : Option String) (code dir : String)
    (limit offset : Nat) (h : sleep < 62) :
    call_api_endpoint fetch apiKey sleep (some "timetable") flight_date dep arr fi
      (some code) (some dir) limit offset = .error .sleepBelowMinimum := by
  simp [call_api_endpoint, h]

/-- C3 witness: route `timetable`, delay 30 seconds, airport `MKE`,
direction `departure`. -/
theorem timetable_sleep_guard_witness :
    ((30 : Int) < 62)
    ∧ call_api_endpoint (fun u => u) "KEY" 30 (some "timetable") none none none none
        (some "MKE") (some "departure") 100 0 = .error .sleepBelowMinimum :=
  ⟨by decide,
    timetable_sleep_guard (fun u => u) "KEY" 30 none none none none "MKE" "departure" 100 0
      (by decide)⟩

/- ## C7: missing route-required filters -/

/-- C7: a flights call with neither departure nor arrival airport fails
with the missing-airport configuration error, and a timetable call with
`iataCode` or `type` missing fails with the missing-arguments
configuration error; both results hold for every fetch oracle, i.e. before
any network request is issued. -/
theorem missing_filter_guard (fetch : String → String) (apiKey : String) (sleep : Int)
    (flight_date fi iataCode type : Option String) (limit offset : Nat)
    (dep arr : Option String) :
    (call_api_endpoint fetch apiKey sleep (some "flights") flight_date none none fi
        iataCode type limit offset = .error .noAirportForFlights)
    ∧ ((iataCode = none ∨ type = none) →
        call_api_endpoint fetch apiKey sleep (some "timetable") flight_date dep arr fi
          iataCode type limit offset = .error .missingTimetableArgs) := by
  constructor
  · simp [call_api_endpoint]
  · intro h
    simp [call_api_endpoint, h]

/-- C7 witness: a timetable call with `iataCode` given but `type` missing
fails with the missing-arguments error. -/
theorem missing_filter_guard_witness :
    (((some "MKE" : Option String) = none) ∨ ((none : Option String) = none))
    ∧ call_api_endpoint (fun u => u) "KEY" 65 (some "timetable") none none none none
        (some "MKE") none 100 0 = .error .missingTimetableArgs :=
  ⟨Or.inr rfl,
    (missing_filter_guard (fun u => u) "KEY" 65 none none (some "MKE") none 100 0
      none none).2 (Or.inr rfl)⟩

/- ## C9: the flights-route URL -/

/-- C9 (amended): for a valid flights call (at least one airport filter
given, no schedule arguments passed), the requested URL is the base
credential/pagination URL followed by exactly the supplied flights-route
filters, followed by the unconditionally appended
`&iataCode=None&type=None` — the schedule-route parameters rendered from
their absent Python values. -/
theorem flights_url (fetch : String → String) (apiKey : String) (sleep : Int)
    (flight_date dep arr fi : Option String) (limit offset : Nat)
    (h : ¬ (dep = none ∧ arr = none)) :
    call_api_endpoint fetch apiKey sleep (some "flights") flight_date dep arr fi
        none none limit offset
      = .ok (fetch (form_aviationstack_api_call "flights" apiKey limit offset
          ++ optParamStr "&flight_date=" flight_date
          ++ optParamStr "&dep_iata=" dep
          ++ optParamStr "&arr_iata=" arr
          ++ optParamStr "&flight_iata=" fi
          ++ "&iataCode=None&type=None")) := by
  simp [call_api_endpoint, pyOptStr, h, String.append_assoc]

/-- C9 witness: a flights call with a flight date and a departure airport. -/
theorem flights_url_witness :
    (¬ ((some "MKE" : Option String) = none ∧ (none : Option String) = none))
    ∧ call_api_endpoint (fun u => u) "KEY" 0 (some "flights") (some "2025-03-01")
        (some "MKE") none none none none 100 0
      = .ok ((fun u => u) (form_aviationstack_api_call "flights" "KEY" 100 0
          ++ optParamStr "&flight_date=" (some "2025-03-01")
          ++ optParamStr "&dep_iata=" (some "MKE")
          ++ optParamStr "&arr_iata=" none
          ++ optParamStr "&flight_iata=" none
          ++ "&iataCode=None&type=None")) :=
  ⟨by simp,
    flights_url (fun u => u) "KEY" 0 (some "2025-03-01") (some "MKE") none none 100 0
      (by simp)⟩

/-- C9 counterexample: the URL of a concrete flights call contains the
schedule-route parameters `iataCode` and `type` (rendered as `None`),
contradicting the claim that no schedule-route parameters appear. -/
theorem flights_url_cex :
    call_api_endpoint (fun u => u) "KEY" 0 (some "flights") none (some "MKE") none none
        none none 100 0
      = .ok "https://api.aviationstack.com/v1/flights?access_key=KEY&limit=100&offset=0&dep_iata=MKE&iataCode=None&type=None"
    ∧ ("https://api.aviationstack.com/v1/flights?access_key=KEY&limit=100&offset=0&dep_iata=MKE&iataCode=None&type=None" : String)
      ≠ "https://api.aviationstack.com/v1/flights?access_key=KEY&limit=100&offset=0&dep_iata=MKE" := by
  constructor
  · rfl
  · decide

/- ## C2: tabulizer columns and field emission -/

/-- C2 (amended): the column order is the lexicographically sorted,
duplicate-free union of all keys across the input records; for each record
and column, if the key is present with a string value that string is
emitted in the field, and if the key is absent the field is empty — but a
key present with a non-string scalar value also renders empty (the bare
`except` swallows the `TypeError` from `record[col] + ','`); the whole
output is the header line followed by one such row per record with its
timestamp. -/
theorem tabulizer_columns_and_fields (rowTs : Nat → String) (flat_json : List FlatRecord) :
    List.Sorted (fun a b : String => a ≤ b) (column_set_of flat_json)
    ∧ (column_set_of flat_json).Nodup
    ∧ (∀ c, c ∈ column_set_of flat_json ↔ ∃ r ∈ flat_json, c ∈ r.map Prod.fst)
    ∧ (∀ (r : FlatRecord) (c s : String),
        r.lookup c = some (JVal.str s) → csv_field r c = s ++ ",")
    ∧ (∀ (r : FlatRecord) (c : String), (∀ kv ∈ r, kv.1 ≠ c) → csv_field r c = ",")
    ∧ transform_flat_json_to_csv rowTs flat_json
        = strcat (fun col => col ++ ",") (column_set_of flat_json) ++ "row_ts" ++ "\n"
          ++ strcat
              (fun ir : Nat × FlatRecord =>
                strcat (csv_field ir.2) (column_set_of flat_json) ++ rowTs ir.1 ++ "\n")
              flat_json.enum := by
  refine ⟨column_set_sorted _, column_set_nodup _, column_set_mem _, ?_, ?_,
    transform_flat_json_to_csv_closed rowTs flat_json⟩
  · intro r c s h
    simp [csv_field, h]
  · intro r c h
    simp [csv_field, lookup_eq_none_of_no_key c r h]

/-- C2 witness: a present string-valued key emits its value; an absent key
emits an empty field. -/
theorem tabulizer_columns_and_fields_witness :
    (([(("a" : String), JVal.str "1")].lookup "a" = some (JVal.str "1")
      ∧ csv_field [("a", JVal.str "1")] "a" = "1" ++ ",")
    ∧ ((∀ kv ∈ ([("a", JVal.str "1")] : FlatRecord), kv.1 ≠ "b")
      ∧ csv_field [("a", JVal.str "1")] "b" = ",")) :=
  ⟨⟨rfl, (tabulizer_columns_and_fields (fun _ => "TS") [[("a", JVal.str "1")]]).2.2.2.1
      [("a", JVal.str "1")] "a" "1" rfl⟩,
   ⟨by decide, (tabulizer_columns_and_fields (fun _ => "TS") [[("a", JVal.str "1")]]).2.2.2.2.1
      [("a", JVal.str "1")] "b" (by decide)⟩⟩

/-- C2 counterexample: a record holding its key `a` with the numeric value
`1` renders an empty field (the claim says the value is emitted): the
actual output is `a,row_ts\n,TS\n`, not `a,row_ts\n1,TS\n`. -/
theorem tabulizer_columns_and_fields_cex :
    transform_flat_json_to_csv (fun _ => "TS") [[("a", JVal.num 1)]] = "a,row_ts\n,TS\n"
    ∧ ("a,row_ts\n,TS\n" : String) ≠ "a,row_ts\n1,TS\n" := by
  constructor
  · rfl
  · decide

/- ## C4: one flat record per input record -/

/-- C4: the Flattener produces exactly one flat record per input record:
the flattened sequence has one element per record summed over all pages'
data arrays, and (when at least one record exists) the serialized output
is `[`, then `dumps(flatten(record))` for every record in original
cross-page and within-page order, comma-separated, then `]`. -/
theorem flattener_one_per_record (dumps : FlatRecord → String) (pages : List FPage) :
    (flattened_records pages).length = (pages.map (fun p => p.data.length)).sum
    ∧ (((pages.map FPage.data).flatten) ≠ [] →
        flatten_and_save_json dumps pages
          = "[" ++ commaSep (fun r => dumps (flatten r)) ((pages.map FPage.data).flatten)
              ++ "]") := by
  constructor
  · simp [flattened_records, List.length_flatten, List.map_map, Function.comp_def]
  · exact flatten_and_save_json_closed dumps pages

/-- C4 witness: two pages with two and one records give three flat
records and a three-element comma-separated JSON array body. -/
theorem flattener_one_per_record_witness :
    ((([FPage.mk [JVal.obj [("a", JVal.num 1)], JVal.obj []],
        FPage.mk [JVal.obj [("b", JVal.str "x")]]].map FPage.data).flatten) ≠ [])
    ∧ flatten_and_save_json (fun _ => "D")
        [FPage.mk [JVal.obj [("a", JVal.num 1)], JVal.obj []],
         FPage.mk [JVal.obj [("b", JVal.str "x")]]]
      = "[" ++ commaSep (fun r => (fun _ => "D") (flatten r))
          (([FPage.mk [JVal.obj [("a", JVal.num 1)], JVal.obj []],
             FPage.mk [JVal.obj [("b", JVal.str "x")]]].map FPage.data).flatten) ++ "]" :=
  ⟨by simp,
    (flattener_one_per_record (fun _ => "D")
      [FPage.mk [JVal.obj [("a", JVal.num 1)], JVal.obj []],
       FPage.mk [JVal.obj [("b", JVal.str "x")]]]).2 (by simp)⟩

/- ## C8: flattening is idempotent on flat records -/

/-- C8: for every already-flat record (a single-level mapping whose values
are all scalar), flattening it again yields the same record. -/
theorem flatten_idempotent_on_flat (fr : FlatRecord)
    (h : ∀ kv ∈ fr, kv.2.isScalar = true) :
    flatten (JVal.obj fr) = fr := by
  have h1 : flatten (JVal.obj fr) = flattenFields fr none := by
    simp [flatten, flatten1]
  rw [h1]
  exact flattenFields_scalar fr h

/-- C8 witness: a two-field flat record is returned unchanged by a second
flattening. -/
theorem flatten_idempotent_on_flat_witness :
    (∀ kv ∈ ([("a", JVal.str "x"), ("b", JVal.num 3)] : FlatRecord), kv.2.isScalar = true)
    ∧ flatten (JVal.obj [("a", JVal.str "x"), ("b", JVal.num 3)])
        = [("a", JVal.str "x"), ("b", JVal.num 3)] :=
  ⟨by decide, flatten_idempotent_on_flat [("a", JVal.str "x"), ("b", JVal.num 3)] (by decide)⟩

/- ## C10: zero records give the single character `]` -/

/-- C10: if every page's data array is empty, the trailing-character strip
removes the opening `[` and the Flattener returns the one-character string
`]` — not a well-formed JSON array. -/
theorem flattener_empty_bracket (dumps : FlatRecord → String) (pages : List FPage)
    (h : ∀ p ∈ pages, p.data = []) :
    flatten_and_save_json dumps pages = "]" := by
  have hrec : ((pages.map FPage.data).flatten) = [] := flattened_records_of_all_empty pages h
  simp only [flatten_and_save_json]
  rw [flatten_fold_closed, hrec]
  rfl

/-- C10 witness: two pages with empty data arrays produce `]`. -/
theorem flattener_empty_bracket_witness :
    (∀ p ∈ [FPage.mk [], FPage.mk []], p.data = [])
    ∧ flatten_and_save_json (fun _ => "D") [FPage.mk [], FPage.mk []] = "]" :=
  ⟨by simp, flattener_empty_bracket (fun _ => "D") [FPage.mk [], FPage.mk []] (by simp)⟩
